import Mathlib

/-!
# Verification of the IRIDE packaging and metadata scripts

Shallow embedding, in Lean 4, of the data model and operations of the
IRIDE packaging scripts (`iride_utils/aoi_info.py`,
`iride_utils/gsp_description.py`, `xml_utils.py`, `merge_burst.py`,
`merge_tiles.py`, `index_bursts.py`, `index_tiles.py`,
`process_trea.py`), together with theorems settling the specification
claims about them.

Dataframes are modelled as lists of rows, each row an association list
from column name to cell value; file systems and zip archives are
modelled explicitly.  Python functions that may raise are embedded with
`Except`; functions that catch errors and return `None` are embedded
with `Option`.
-/

/-! ## `iride_utils/aoi_info.py` -/

/-- The dictionary returned by `get_aoi_info`:
`{'aoi_tag': aoi_tag, 'aoi_name': aoi_name}`. -/
structure AoiInfo where
  aoi_tag : String
  aoi_name : String
deriving DecidableEq

/-- Embedding of Python `str.lower()`: character-wise lower-casing.
(`String.toLower` in core Lean is the same map but is defined by
well-founded recursion and so does not evaluate in proofs by `decide`;
this structurally recursive form does.) -/
def strLower (s : String) : String := String.mk (s.data.map Char.toLower)

deriving instance DecidableEq for Except

/-- Generic embedding of a Python `if x in [...]: ... elif ...` chain:
scan the rules in order, returning the value of the first rule whose
key list contains the scrutinee. -/
def chainFind {α : Type} : List (List String × α) → String → Option α
  | [], _ => none
  | (ks, v) :: rest, s => if s ∈ ks then some v else chainFind rest s

/-- The `if/elif` table of `get_aoi_info`, entry for entry in source
order.  Note that the source spells the key `'Vulcano'` with a capital
letter even though the scrutinee has been lower-cased. -/
def aoi_table : List (List String × AoiInfo) :=
  [ (["nocera_terinese", "ntr", "nocera terinese"],
      ⟨"NTR", "A2 - Nocera Terinese"⟩),
    (["palermo", "pal"], ⟨"PAL", "Palermo"⟩),
    (["brennero", "brn"], ⟨"BRN", "Brennero Area"⟩),
    (["cortina", "crt"], ⟨"CRT", "Cortina"⟩),
    (["norcia", "nri"], ⟨"NRI", "Norcia"⟩),
    (["pistoia", "pst"], ⟨"PST", "Pistoia"⟩),
    (["mattinata", "mti"], ⟨"mti", "Mattinata"⟩),
    (["colli_albani", "coa"], ⟨"coa", "Colli ALbani Area"⟩),
    (["Vulcano", "vla"], ⟨"VLA", "Vulcano Island"⟩),
    (["calabria", "cal"], ⟨"CAL", "Calabria"⟩),
    (["sicilia", "sic"], ⟨"SIC", "Sicilia"⟩),
    (["basilicata", "bas"], ⟨"BAS", "Basilicata"⟩),
    (["puglia", "pug"], ⟨"PUG", "Puglia"⟩),
    (["campania", "cam"], ⟨"CAM", "Campania"⟩),
    (["molise", "mol"], ⟨"MOL", "Molise"⟩),
    (["abruzzo", "abr"], ⟨"ABR", "Abruzzo"⟩),
    (["lazio", "laz"], ⟨"LAZ", "Lazio"⟩),
    (["umbria", "umb"], ⟨"UMB", "Umbria"⟩),
    (["marche", "mar"], ⟨"MAR", "Marche"⟩),
    (["emilia_romagna", "era"], ⟨"ERA", "Emilia Romagna"⟩),
    (["toscana", "tos"], ⟨"TOS", "Toscana"⟩),
    (["lombardia", "lom"], ⟨"LOM", "Lombardia"⟩),
    (["piemonte", "pie"], ⟨"PIE", "Piemonte"⟩),
    (["sardegna", "sar"], ⟨"SAR", "Sardegna"⟩),
    (["trentino", "taa"], ⟨"TAA", "Trentino Alto Adige"⟩),
    (["veneto", "ven"], ⟨"VEN", "Veneto"⟩),
    (["friuli_venezia_giulia", "fvg"], ⟨"FVG", "Friuli Venezia Giulia"⟩),
    (["liguria", "lig"], ⟨"LIG", "Liguria"⟩),
    (["valle_d_aosta", "vda"], ⟨"VDA", "Valle d\x27Aosta"⟩) ]

/-- `get_aoi_info`: lower-case the argument, scan the `if/elif` chain,
and raise `ValueError` (modelled as `Except.error`) when no branch
matches. -/
def get_aoi_info (aoi : String) : Except String AoiInfo :=
  let a := strLower aoi
  match chainFind aoi_table a with
  | some info => Except.ok info
  | none => Except.error ("AOI " ++ a ++ " not found.")

/-- C8: `get_aoi_info('sicilia')` returns
`{'aoi_tag': 'SIC', 'aoi_name': 'Sicilia'}`. -/
theorem get_aoi_info_sicilia :
    get_aoi_info "sicilia" = Except.ok ⟨"SIC", "Sicilia"⟩ := by
  decide

/-- C5: the source lower-cases its argument before comparing it with the
branch lists, but the Vulcano branch spells its extended-name key
`'Vulcano'` with a capital letter, so the extended name of the Vulcano
area is rejected with `ValueError` in every letter case, while the
short tag `'vla'` still resolves.  This evaluates the embedded code at
the failing input. -/
theorem get_aoi_info_vulcano_raises :
    get_aoi_info "Vulcano" = Except.error "AOI vulcano not found." ∧
    get_aoi_info "vulcano" = Except.error "AOI vulcano not found." ∧
    get_aoi_info "vla" = Except.ok ⟨"VLA", "Vulcano Island"⟩ := by
  refine ⟨?_, ?_, ?_⟩ <;> decide

/-! ## `iride_utils/gsp_description.py` -/

/-- The keys scanned by a Python `if/elif` chain: the concatenation of
all the branch key lists. -/
def chainKeys {α : Type} (rules : List (List String × α)) : List String :=
  (rules.map Prod.fst).flatten

/-- The `if/elif` table of `gsp_description`, entry for entry in source
order.  Adjacent Python string literals are concatenated as written. -/
def description_table : List (List String × String) :=
  [ (["S3-01-SNT-01", "S3-01-CSM-01", "S3-01-SAO-01",
      "S301SNT01", "S301CSM01", "S301SAO01"],
      "Single Geometry Deformation."),
    (["S3-01-SNT-02", "S3-01-CSM-02", "S3-01-SAO-02",
      "S301SNT02", "S301CSM02", "S301SAO02"],
      "Single Geometry Calibrated Deformation."),
    (["S3-01-SNT-03", "S3-01-CSM-03", "S3-01-SAO-03",
      "S301SNT03", "S301CSM03", "S301SAO03"],
      "2D Deformation East-West and Vertical Components."),
    (["S3-01-SNT-04", "S3-01-CSM-04", "S3-01-SAO-04",
      "S301SNT04", "S301CSM04", "S301SAO04"],
      "Active Displacement Areas."),
    (["S3-02-SNT-02", "S3-02-CSM-02", "S3-02-SAO-02",
      "S302SNT02", "S302CSM02", "S302SAO02"],
      "LOS velocities projected along the maximum slope."),
    (["S3-02-SNT-03", "S3-02-CSM-03", "S3-02-SAO-03",
      "S302SNT03", "S302CSM03", "S302SAO03"],
      "Spatial Anomaly maps."),
    (["S3-02-SNT-04", "S3-02-CSM-04", "S3-02-SAO-04",
      "S302SNT04", "S302CSM04", "S302SAO04"],
      "Temporal Anomaly Maps."),
    (["S3-02-SNT-05", "S3-02-CSM-05", "S3-02-SAO-05",
      "S302SNT05", "S302CSM05", "S302SAO05"],
      "Automatic identification of unstable slopes."),
    (["S3-03-CHA-01", "S303CHA01"], "InSAR Statistical Indexes."),
    (["S3-03-CHA-02", "S303CHA02"], "3D Velocity Decomposition."),
    (["S3-03-CHA-03", "S303CHA03"],
      "Identification of Differential Deformation over Cultural Heritage Structures."),
    (["S3-03-CHA-04", "S303CHA04"], "Temporal Anomaly Maps."),
    (["S3-03-CHA-05", "S303CHA05"],
      "Intersection of spatio-temporal anomalies with exposed Cultural heritage."),
    (["S3-04-SNT-02", "S3-04-CSM-02", "S3-04-SAO-02",
      "S304SNT02", "S304CSM02", "S304SAO02"],
      "Active deformation areas close to infrastructures."),
    (["S3-04-SNT-03", "S3-04-CSM-03", "S3-04-SAO-03",
      "S304SNT03", "S304CSM03", "S304SAO03"],
      "Anomalous Deformation Areas based on acceleration analysis."),
    (["S3-05-ETQ-01", "S305ETQ01"],
      "Single geometry calibrated deformations resampled on a medium resolution grid."),
    (["S3-05-ETQ-02", "S305ETQ02"],
      "2D calibrated deformations: East-West and Vertical components."),
    (["S3-05-ETQ-03", "S305ETQ03"],
      "Spatial clusterization based on temporal displacement models."),
    (["S3-05-ETQ-04", "S305ETQ04"], "DInSAR-based co-seismic deformation."),
    (["S3-05-ETQ-05", "S305ETQ05"],
      "Strategic assets single geometry deformations: non-calibrated and calibrated."),
    (["S3-05-ETQ-06", "S305ETQ06"],
      "Strategic assets 2D deformations: East-West and vertical components."),
    (["S3-05-ETQ-07", "S305ETQ07"],
      "Strategic assets PS/DS-based temporal anomalies."),
    (["S3-06-VOL-02", "S306VOL02"], "Active Deformation Areas Perimeter."),
    (["S3-06-VOL-03", "S306VOL03"],
      "Identification of Differential Deformation over Volcanic Areas."),
    (["S3-06-VOL-04", "S306VOL04"], "Temporal Anomaly Maps."),
    (["S3-06-VOL-05", "S306VOL05"],
      "Multi-sensors and multi-geometry Data Fusion."),
    (["S3-06-VOL-06", "S306VOL06"], "Change Detection Maps."),
    (["S3-06-VOL-07", "S306VOL07"], "InSAR Coherence Maps."),
    (["S3-06-VOL-08", "S306VOL08"],
      "Intersection of spatio-temporal anomalies with exposed assets."),
    (["S3-07-OND-01", "S307OND01"],
      "Single geometry calibrated deformations extracted for the period of interest."),
    (["S3-07-OND-02", "S307OND02"],
      "2D calibrated deformations: East-West and Vertical components."),
    (["S3-07-OND-03", "S307OND03"], "Landslide Spatial Anomalies."),
    (["S3-07-OND-04", "S307OND04"], "Landslide Spatio-Temporal Anomalies."),
    (["S3-07-OND-05", "S307OND05"],
      "Area of influence of active areas from spatial anomalies."),
    (["S3-07-OND-06", "S307OND06"],
      "LOS velocities projected along the maximum slope."),
    (["S3-07-OND-07", "S307OND07"],
      "GNSS time series projected along the PS/DS LOS."),
    (["S3-07-OND-08", "S307OND08"], "Volcanic Spatial Statistics."),
    (["S3-07-OND-09", "S307OND09"], "InSAR Coherence Maps.") ]

/-- `gsp_description`: scan the chain, `return ""` in the `else`. -/
def gsp_description (gsp_id : String) : String :=
  (chainFind description_table gsp_id).getD ""

/-- The `if/elif` table of `gsp_metadata`, entry for entry in source
order.  The S3-04 branch is transcribed with the source's own key
strings, where `'S3-04-SAO-03'` appears twice and `'S304SAO04'` appears
in place of the compact spelling of `'S3-04-SAO-02'`. -/
def metadata_table : List (List String × List String) :=
  [ (["S3-01-SNT-01", "S3-01-CSM-01", "S3-01-SAO-01",
      "S301SNT01", "S301CSM01", "S301SAO01"], ["CopDem"]),
    (["S3-01-SNT-02", "S3-01-CSM-02", "S3-01-SAO-02",
      "S301SNT02", "S301CSM02", "S301SAO02"], ["CopDem"]),
    (["S3-01-SNT-03", "S3-01-CSM-03", "S3-01-SAO-03",
      "S301SNT03", "S301CSM03", "S301SAO03"], ["CopDem"]),
    (["S3-01-SNT-04", "S3-01-CSM-04", "S3-01-SAO-04",
      "S301SNT04", "S301CSM04", "S301SAO04"], ["CopDem", "OpenStreetMap"]),
    (["S3-02-SNT-02", "S3-02-CSM-02", "S3-02-SAO-02",
      "S302SNT02", "S302CSM02", "S302SAO02"], ["Tinitaly-10"]),
    (["S3-02-SNT-04", "S3-02-CSM-04", "S3-02-SAO-04",
      "S302SNT04", "S302CSM04", "S302SAO04"], ["Tinitaly-10"]),
    (["S3-02-SNT-05", "S3-02-CSM-05", "S3-02-SAO-05",
      "S302SNT05", "S302CSM05", "S302SAO05"], ["Tinitaly-10"]),
    (["S3-04-SNT-02", "S3-04-CSM-02", "S3-04-SAO-03",
      "S304SNT02", "S304CSM02", "S304SAO04",
      "S3-04-SNT-03", "S3-04-CSM-03", "S3-04-SAO-03",
      "S304SNT03", "S304CSM03", "S304SAO03"],
      ["Tinitaly-10", "OpenStreetMap", "CopDem"]) ]

/-- `gsp_metadata`: scan the chain, `return []` in the `else`. -/
def gsp_metadata (gsp_id : String) : List String :=
  (chainFind metadata_table gsp_id).getD []

/-- The `if/elif` table of `gsp_d_type`, entry for entry in source
order (including the same S3-04 key typos as `gsp_metadata`). -/
def d_type_table : List (List String × String) :=
  [ (["S3-01-SNT-01", "S3-01-CSM-01", "S3-01-SAO-01",
      "S301SNT01", "S301CSM01", "S301SAO01",
      "S3-01-SNT-02", "S3-01-CSM-02", "S3-01-SAO-02",
      "S301SNT02", "S301CSM02", "S301SAO02",
      "S3-01-SNT-03", "S3-01-CSM-03", "S3-01-SAO-03",
      "S301SNT03", "S301CSM03", "S301SAO03",
      "S3-02-SNT-02", "S3-02-CSM-02", "S3-02-SAO-02",
      "S302SNT02", "S302CSM02", "S302SAO02",
      "S3-02-SNT-04", "S3-02-CSM-04", "S3-02-SAO-04",
      "S302SNT04", "S302CSM04", "S302SAO04",
      "S3-02-SNT-05", "S3-02-CSM-05", "S3-02-SAO-05",
      "S302SNT05", "S302CSM05", "S302SAO05",
      "S3-03-CHA-02", "S303CHA02", "S3-03-CHA-04", "S303CHA04",
      "S3-04-SNT-02", "S3-04-CSM-02", "S3-04-SAO-03",
      "S304SNT02", "S304CSM02", "S304SAO04",
      "S3-04-SNT-03", "S3-04-CSM-03", "S3-04-SAO-03",
      "S304SNT03", "S304CSM03", "S304SAO03",
      "S3-05-ETQ-01", "S305ETQ01", "S3-05-ETQ-02", "S305ETQ02",
      "S3-05-ETQ-03", "S305ETQ03", "S3-05-ETQ-06", "S305ETQ06",
      "S3-05-ETQ-07", "S305ETQ07",
      "S3-06-VOL-02", "S306VOL02", "S3-06-VOL-04", "S306VOL04",
      "S3-06-VOL-05", "S306VOL05",
      "S3-07-OND-01", "S307OND01", "S3-07-OND-02", "S307OND02",
      "S3-07-OND-07", "S307OND07"],
      "ESRI Shapefile (Geometry: Points) + CSV"),
    (["S3-01-SNT-04", "S3-01-CSM-04", "S3-01-SAO-04",
      "S301SNT04", "S301CSM04", "S301SAO04",
      "S3-02-SNT-04", "S3-02-CSM-04", "S3-02-SAO-04",
      "S302SNT04", "S302CSM04", "S302SAO04",
      "S3-03-CHA-01", "S303CHA01", "S3-03-CHA-03", "S303CHA03",
      "S3-03-CHA-05", "S303CHA05", "S3-06-VOL-02", "S306VOL02",
      "S3-06-VOL-08", "S306VOL08",
      "S3-07-OND-06", "S307OND06", "S3-07-OND-08", "S307OND08"],
      "ESRI Shapefile (Geometry: Polygon)"),
    (["S3-05-ETQ-04", "S305ETQ04", "S3-06-VOL-06", "S306VOL06",
      "S3-06-VOL-07", "S306VOL07"],
      "GeoTiff disp. Map + XML"),
    (["S3-06-VOL-02", "S306VOL02", "S3-07-OND-03", "S307OND03",
      "S3-07-OND-04", "S307OND04", "S3-07-OND-05", "S307OND05",
      "S3-07-OND-09", "S307OND09"],
      "ESRI Shapefile (Geometry: Polygon / Points) + CSV"),
    (["S3-06-VOL-08", "S306VOL08"],
      "ESRI Shapefile (Geometry: Polygon / Polylines) + CSV") ]

/-- `gsp_d_type`: scan the chain, `return "NA"` in the `else`. -/
def gsp_d_type (gsp_id : String) : String :=
  (chainFind d_type_table gsp_id).getD "NA"

/-- Scanning an `if/elif` chain with a scrutinee that is in none of the
branch key lists reaches the `else`. -/
theorem chainFind_eq_none {α : Type} (rules : List (List String × α))
    (s : String) (h : s ∉ chainKeys rules) : chainFind rules s = none := by
  induction rules with
  | nil => rfl
  | cons r rest ih =>
      obtain ⟨ks, v⟩ := r
      simp only [chainKeys, List.map_cons, List.flatten_cons,
        List.mem_append, not_or] at h
      show (if s ∈ ks then some v else chainFind rest s) = none
      rw [if_neg h.1]
      exact ih h.2

/-- C10: the three GSP lookups are total: any `gsp_id` outside the
respective lookup table falls through every branch and yields the
default `''`, `[]`, `'NA'`; no exception is raised (the embedded
functions return plain values, not `Except`). -/
theorem gsp_lookups_total (s : String) :
    (s ∉ chainKeys description_table → gsp_description s = "") ∧
    (s ∉ chainKeys metadata_table → gsp_metadata s = []) ∧
    (s ∉ chainKeys d_type_table → gsp_d_type s = "NA") := by
  refine ⟨fun h => ?_, fun h => ?_, fun h => ?_⟩ <;>
    simp [gsp_description, gsp_metadata, gsp_d_type, chainFind_eq_none _ _ h]

/-- Witness for C10 at the concrete unknown id `'S3-99-XXX-99'`. -/
theorem gsp_lookups_total_witness :
    ("S3-99-XXX-99" ∉ chainKeys description_table ∧
      "S3-99-XXX-99" ∉ chainKeys metadata_table ∧
      "S3-99-XXX-99" ∉ chainKeys d_type_table) ∧
    gsp_description "S3-99-XXX-99" = "" ∧
    gsp_metadata "S3-99-XXX-99" = [] ∧
    gsp_d_type "S3-99-XXX-99" = "NA" :=
  ⟨⟨by decide, by decide, by decide⟩,
    (gsp_lookups_total "S3-99-XXX-99").1 (by decide),
    (gsp_lookups_total "S3-99-XXX-99").2.1 (by decide),
    (gsp_lookups_total "S3-99-XXX-99").2.2 (by decide)⟩

/-- C4: the dashed and compact spellings are not everywhere aliases.
For the product `S3-04-SAO-04`, `gsp_metadata` and `gsp_d_type` accept
the compact spelling `'S304SAO04'` (listed by mistake in the S3-04
branch) but not the dashed spelling `'S3-04-SAO-04'`, which falls
through to the defaults.  This evaluates the embedded code at the
failing input pair. -/
theorem gsp_alias_mismatch_S304SAO04 :
    gsp_metadata "S3-04-SAO-04" = [] ∧
    gsp_metadata "S304SAO04" = ["Tinitaly-10", "OpenStreetMap", "CopDem"] ∧
    gsp_d_type "S3-04-SAO-04" = "NA" ∧
    gsp_d_type "S304SAO04" = "ESRI Shapefile (Geometry: Points) + CSV" := by
  refine ⟨?_, ?_, ?_, ?_⟩ <;> decide

/-! ## `xml_utils.py` -/

/-- A parsed XML element: tag, text, child elements (the subset of
`xml.etree.ElementTree.Element` the scripts use). -/
inductive Xml where
  | elem (tag : String) (text : String) (children : List Xml)

/-- The value `xml_to_dict` produces: the element's text when it has no
children, otherwise a dictionary from child tag to converted child. -/
inductive XVal where
  | leaf (text : String)
  | node (entries : List (String × XVal))

/-- The tag of an element. -/
def Xml.tag : Xml → String
  | .elem t _ _ => t

/-- `xml_to_dict`: an element with no children becomes its text; one
with children becomes the dictionary of its children keyed by tag. -/
def xml_to_dict : Xml → XVal
  | .elem _ text [] => .leaf text
  | .elem _ _ (c :: cs) =>
      .node ((c :: cs).attach.map (fun x => (x.1.tag, xml_to_dict x.1)))
decreasing_by
  have hm := x.2
  have := List.sizeOf_lt_of_mem hm
  simp only [Xml.elem.sizeOf_spec]
  omega

/-- What opening a path as a zip archive can yield: the file is
missing (`FileNotFoundError`), it is not a valid zip (`BadZipFile`), or
it is an archive whose members appear in `namelist()` order.  A member
is a name paired with its (parsed) content; the content is only ever
inspected for members whose name ends in `.xml`. -/
inductive ZipSource where
  | missing
  | badZip
  | archive (entries : List (String × Xml))

/-- The `for filename in zipf.namelist()` loop of
`extract_xml_from_zip`, with the `xml_dicts` accumulator made
explicit: each `.xml` member is parsed and appended. -/
def extract_loop : List (String × Xml) → List XVal → List XVal
  | [], acc => acc
  | (name, x) :: rest, acc =>
      if name.endsWith ".xml" then extract_loop rest (acc ++ [xml_to_dict x])
      else extract_loop rest acc

/-- `extract_xml_from_zip`: run the loop inside `try`; the two
`except` handlers print a message and fall off the function, which
returns `None` (modelled as `none`). -/
def extract_xml_from_zip : ZipSource → Option (List XVal)
  | .missing => none
  | .badZip => none
  | .archive entries => some (extract_loop entries [])

/-- The accumulator loop collects exactly the `.xml` members, in
order. -/
theorem extract_loop_eq (l : List (String × Xml)) (acc : List XVal) :
    extract_loop l acc =
      acc ++ (l.filter (fun e => e.1.endsWith ".xml")).map
        (fun e => xml_to_dict e.2) := by
  induction l generalizing acc with
  | nil => simp [extract_loop]
  | cons e rest ih =>
      obtain ⟨name, x⟩ := e
      by_cases h : name.endsWith ".xml" <;>
        simp [extract_loop, h, ih, List.filter_cons]

/-- C9: `extract_xml_from_zip` returns `None` (not a list, not an
exception) when the path does not exist or is not a valid zip, despite
its `List[Dict]` annotation; on a valid archive it returns one
dictionary per `.xml` member, in `namelist()` order. -/
theorem extract_xml_from_zip_spec :
    extract_xml_from_zip ZipSource.missing = none ∧
    extract_xml_from_zip ZipSource.badZip = none ∧
    ∀ entries : List (String × Xml),
      extract_xml_from_zip (ZipSource.archive entries) =
        some ((entries.filter (fun e => e.1.endsWith ".xml")).map
          (fun e => xml_to_dict e.2)) :=
  ⟨rfl, rfl, fun entries => by
    simp [extract_xml_from_zip, extract_loop_eq]⟩

/-! ## Dataframes as lists of rows

A (geo)dataframe is modelled as a list of rows, each row an association
list from column name to cell value.  Cell values are kept as strings;
geometry columns and CRS conversions are carried as opaque cell values
(no claim inspects them). -/

/-- One dataframe row. -/
abbrev Row := List (String × String)

/-- A disk full of GSP input archives: for each path, the geodataframe
`read_as_geodataframe` returns for it, together with the fields of the
dictionary `extract_xml_from_zip(path)[0]` that the merge scripts
read. -/
structure GspFile where
  df : List Row
  product_id : String
  start_date : String
  end_date : String
  production_date : String
  provider : String
  crs : String
  burst_id : String
  tile_id : String

/-- The contents of every input archive, by path. -/
abbrev Disk := String → GspFile

/-- The value of column `c` in row `r` (first matching column, as for
a pandas lookup); `none` when the row has no such column. -/
def colVal : Row → String → Option String
  | [], _ => none
  | p :: rest, c => if p.1 == c then some p.2 else colVal rest c

/-- Rename one column key of a row (identity when the key is absent,
which is why the source's `if 'LAT' in gdf.columns` guard needs no
separate modelling). -/
def renameCol (old nw : String) (r : Row) : Row :=
  r.map (fun p => if p.1 == old then (nw, p.2) else p)

/-- `rename_columns` (from `read_as_geodataframe.py`): standardise
`LAT`/`LON`/`CODE` to `latitude`/`longitude`/`pid`. -/
def rename_columns (df : List Row) : List Row :=
  df.map (fun r =>
    renameCol "CODE" "pid" (renameCol "LON" "longitude"
      (renameCol "LAT" "latitude" r)))

/-- The tuple of values a `drop_duplicates(subset=keys)` call compares:
the row's values at the listed key columns. -/
def rowKey (keys : List String) (r : Row) : List (Option String) :=
  keys.map (fun c => colVal r c)

/-- The scan behind `drop_duplicates`: keep a row when its key tuple
has not been seen yet (pandas keeps the first occurrence). -/
def dedup_go (keys : List String) (seen : List (List (Option String))) :
    List Row → List Row
  | [] => []
  | r :: rs =>
      if rowKey keys r ∈ seen then dedup_go keys seen rs
      else r :: dedup_go keys (rowKey keys r :: seen) rs

/-- `DataFrame.drop_duplicates(subset=keys)`. -/
def drop_duplicates (keys : List String) (df : List Row) : List Row :=
  dedup_go keys [] df

/-- Every row surviving the dedup scan has a key tuple outside `seen`. -/
theorem rowKey_not_seen_of_mem_dedup_go (keys : List String)
    (l : List Row) :
    ∀ seen r, r ∈ dedup_go keys seen l → rowKey keys r ∉ seen := by
  induction l with
  | nil => intro seen r h; simp [dedup_go] at h
  | cons a rs ih =>
      intro seen r h
      by_cases ha : rowKey keys a ∈ seen
      · rw [dedup_go, if_pos ha] at h
        exact ih seen r h
      · rw [dedup_go, if_neg ha] at h
        rcases List.mem_cons.mp h with h | h
        · exact h ▸ ha
        · have := ih _ r h
          exact fun hc => this (List.mem_cons_of_mem _ hc)

/-- The dedup scan emits rows with pairwise distinct key tuples. -/
theorem dedup_go_pairwise (keys : List String) (l : List Row) :
    ∀ seen, (dedup_go keys seen l).Pairwise
      (fun a b => rowKey keys a ≠ rowKey keys b) := by
  induction l with
  | nil => intro seen; simp [dedup_go]
  | cons a rs ih =>
      intro seen
      by_cases ha : rowKey keys a ∈ seen
      · rw [dedup_go, if_pos ha]; exact ih seen
      · rw [dedup_go, if_neg ha]
        refine List.Pairwise.cons ?_ (ih _)
        intro b hb hkey
        have := rowKey_not_seen_of_mem_dedup_go keys rs _ b hb
        exact this (hkey ▸ List.mem_cons_self _ _)

/-- `drop_duplicates` output has pairwise distinct key tuples. -/
theorem drop_duplicates_pairwise (keys : List String) (df : List Row) :
    (drop_duplicates keys df).Pairwise
      (fun a b => rowKey keys a ≠ rowKey keys b) :=
  dedup_go_pairwise keys df []

/-! ## String helpers used by the merge scripts

These embed, structurally (so that they evaluate in proofs), the Python
string operations the scripts use: `str.replace`, `str.split`,
`os.path.basename`/`join` and `pathlib.Path(...).stem` on the script's
forward-slash paths. -/

/-- `str.replace` on character lists: replace non-overlapping
occurrences of `pat` left to right.  The fuel argument (instantiated
with the string length, an upper bound on the number of steps) makes
the recursion structural. -/
def replaceAux (pat rep : List Char) : Nat → List Char → List Char
  | _, [] => []
  | 0, l => l
  | fuel + 1, c :: cs =>
      if pat.isPrefixOf (c :: cs) then
        rep ++ replaceAux pat rep fuel ((c :: cs).drop pat.length)
      else c :: replaceAux pat rep fuel cs

/-- Python `s.replace(pat, rep)` (for the non-empty patterns the
scripts use). -/
def pyReplace (s pat rep : String) : String :=
  String.mk (replaceAux pat.data rep.data s.data.length s.data)

/-- Python `s.replace('-', '')`: drop every dash. -/
def removeDashes (s : String) : String :=
  String.mk (s.data.filter (fun c => c != '-'))

/-- Split a character list at a separator (Python `str.split(sep)` for
a single-character separator). -/
def splitOnChar (sep : Char) : List Char → List (List Char)
  | [] => [[]]
  | c :: cs =>
      match splitOnChar sep cs with
      | [] => [[]]
      | g :: gs => if c == sep then [] :: g :: gs else (c :: g) :: gs

/-- Python `s.split(sep)` for a single-character separator. -/
def splitOnCharStr (sep : Char) (s : String) : List String :=
  (splitOnChar sep s.data).map String.mk

/-- `os.path.basename` on the forward-slash paths the scripts build. -/
def baseName (p : String) : String :=
  (splitOnCharStr '/' p).getLastD ""

/-- `pathlib.Path(p).stem` for the archive file names the scripts
handle (final path component without its last `.suffix`). -/
def pathStem (p : String) : String :=
  let parts := splitOnCharStr '.' (baseName p)
  if parts.length ≤ 1 then baseName p
  else String.intercalate "." parts.dropLast

/-- `os.path.join(a, b)` for the two-argument joins the scripts use:
an absolute second component wins, otherwise separate with a slash. -/
def pjoin (a b : String) : String :=
  if b.data.head? == some '/' then b else a ++ "/" ++ b

/-- Python `s[:-1]`. -/
def strDropLast (s : String) : String := String.mk s.data.dropLast

/-- Python `str.isdigit` (ASCII digits, as in the product file
names): non-empty and all digits. -/
def isDigitsStr (s : String) : Bool :=
  !s.data.isEmpty && s.data.all Char.isDigit

/-- Full match of the date-column pattern `D?(\d+)` from
`merge_burst.py`: an optional leading `D` followed by at least one
digit. -/
def datesPatMatch (c : String) : Bool :=
  isDigitsStr c ||
    (match c.data with
     | d :: rest => d == 'D' && (!rest.isEmpty && rest.all Char.isDigit)
     | [] => false)

/-- `d[1:] if d.startswith('D') else d`. -/
def stripD (c : String) : String :=
  match c.data with
  | d :: rest => if d == 'D' then String.mk rest else c
  | [] => c

/-- A matched date column name, stripped of its optional `D`, is a
non-empty digit string. -/
theorem stripD_isDigits (c : String) (h : datesPatMatch c = true) :
    isDigitsStr (stripD c) = true := by
  obtain ⟨data⟩ := c
  cases data with
  | nil => simp [datesPatMatch, isDigitsStr] at h
  | cons d rest =>
      by_cases hd : d = 'D'
      · subst hd
        simp [datesPatMatch, isDigitsStr] at h
        simp [stripD, isDigitsStr]
        exact h
      · have hd' : (d == 'D') = false := by simp [hd]
        simp [datesPatMatch, hd'] at h
        simpa [stripD, hd'] using h

/-- The column names of a dataframe (union of the rows' keys; for the
homogeneous frames pandas produces this is the frame's column list). -/
def dfColumns (df : List Row) : List String :=
  ((df.map (fun r => r.map Prod.fst)).flatten).dedup

/-- Rename, within one row, every column selected by `q` to its
`D`-prefixed form. -/
def prefixRenameRow (q : String → Bool) (r : Row) : Row :=
  r.map (fun p => if q p.1 then ("D" ++ p.1, p.2) else p)

/-- The date-column renaming of `merge_burst.py` (lines 192-198):
collect the columns matching `D?(\d+)`, strip the optional `D`, and
rename each column equal to a stripped name to its `D`-prefixed
form. -/
def dates_convention (df : List Row) : List Row :=
  df.map (prefixRenameRow
    (fun k => decide (k ∈ ((dfColumns df).filter datesPatMatch).map stripD)))

/-- The digit-column renaming of `merge_tiles.py` (lines 166-168):
every all-digit column is renamed to its `D`-prefixed form. -/
def digit_columns_rename (df : List Row) : List Row :=
  df.map (prefixRenameRow isDigitsStr)

/-- Drop a column from every row (`gdf.drop(columns='geometry')`;
identity when the column is absent). -/
def dropCol (c : String) (df : List Row) : List Row :=
  df.map (fun r => r.filter (fun p => p.1 != c))

/-- Appending to the literal `"D"` prepends the character `'D'`. -/
theorem data_D_append (k : String) : ("D" ++ k).data = 'D' :: k.data := by
  rw [String.data_append]
  rfl

/-- A `D`-prefixed renaming whose selected columns are all digit
strings does not change lookups of a non-digit column whose name does
not start with `D`. -/
theorem colVal_prefixRenameRow (q : String → Bool)
    (hdig : ∀ k, q k = true → isDigitsStr k = true) (c : String)
    (hc : isDigitsStr c = false) (hch : c.data.head? ≠ some 'D')
    (r : Row) : colVal (prefixRenameRow q r) c = colVal r c := by
  induction r with
  | nil => rfl
  | cons p rest ih =>
      simp only [prefixRenameRow, List.map_cons]
      by_cases hq : q p.1 = true
      · rw [if_pos hq]
        have h1 : (("D" ++ p.1) == c) = false := by
          apply beq_false_of_ne
          intro hcon
          apply hch
          rw [← hcon, data_D_append]
          rfl
        have h2 : (p.1 == c) = false := by
          apply beq_false_of_ne
          intro hcon
          rw [← hcon] at hc
          rw [hdig p.1 hq] at hc
          exact absurd hc (by decide)
        show colVal (("D" ++ p.1, p.2) :: prefixRenameRow q rest) c = _
        rw [colVal, colVal, h1, h2]
        simp only [Bool.false_eq_true, if_false]
        exact ih
      · rw [if_neg hq]
        show colVal (p :: prefixRenameRow q rest) c = _
        rw [colVal, colVal]
        by_cases hpc : (p.1 == c) = true
        · rw [hpc]
          rfl
        · have hpc' : (p.1 == c) = false := by
            cases hb : (p.1 == c)
            · rfl
            · exact absurd hb hpc
          rw [hpc']
          simp only [Bool.false_eq_true, if_false]
          exact ih

/-! ## File contents, file-system actions and traces

The observable effects of one merge iteration are the files it writes
and removes, in program order.  The generated metadata XML is carried
as a structured value (its serialization through
`ElementTree`/`minidom` is a formatting detail no claim inspects); the
bounding-box and envelope fields, which are floating-point geometry,
are not modelled. -/

/-- `SENSOR = 'SNT'` from both merge scripts. -/
def SENSOR : String := "SNT"

/-- The `--format` command line option. -/
inductive OutFormat where
  | csv
  | parquet
  | shp
deriving DecidableEq

/-- The file extension each format writes. -/
def fmtExt : OutFormat → String
  | .csv => ".csv"
  | .parquet => ".parquet"
  | .shp => ".shp"

/-- One `<gsp>` entry of the burst metadata `<dataset>`. -/
structure GspEntry where
  gsp_id : String
  product_id : String
  burst_id : String
  description : String

/-- The metadata document `merge_burst.py` synthesizes. -/
structure GspXmlMeta where
  gsp_id : String
  product_id : String
  description : String
  sensor_id : String
  track_id : String
  provider : String
  production_date : String
  start_date : String
  end_date : String
  aoi : String
  crs : String
  datasetInputs : List String
  datasetGsps : List GspEntry

/-- One `<gsp>` entry of the tiles metadata `<dataset>`. -/
structure TileEntry where
  gsp_id : String
  product_id : String
  tile_id : String
  description : String

/-- The metadata document `merge_tiles.py` synthesizes. -/
structure TilesXmlMeta where
  gsp_id : String
  product_id : String
  description : String
  sensor_id : String
  provider : String
  production_date : String
  start_date : String
  end_date : String
  aoi : String
  crs : String
  datasetInputs : List String
  datasetGsps : List TileEntry

/-- What a written file holds. -/
inductive FileContent where
  | table (df : List Row)
  | burstXml (m : GspXmlMeta)
  | tilesXml (m : TilesXmlMeta)
  | zipArc (members : List (String × FileContent))

/-- One observable file-system effect. -/
inductive FsAction where
  | write (path : String) (content : FileContent)
  | remove (path : String)

/-- Apply one action to a file system (path to content). -/
def applyAction (fs : String → Option FileContent) (a : FsAction) :
    String → Option FileContent :=
  match a with
  | .write p c => fun q => if q = p then some c else fs q
  | .remove p => fun q => if q = p then none else fs q

/-- Apply a trace of actions, first action first. -/
def applyTrace (fs : String → Option FileContent) (tr : List FsAction) :
    String → Option FileContent :=
  tr.foldl applyAction fs

/-- Is this action the creation of a zip archive? -/
def isZipWrite : FsAction → Bool
  | .write _ (FileContent.zipArc _) => true
  | _ => false

/-- Number of zip archives a trace produces. -/
def zipWriteCount (tr : List FsAction) : Nat :=
  (tr.filter isZipWrite).length

/-! ## `merge_burst.py` -/

/-- The `Path` cell of an index row (the scripts assume it is
present). -/
def rowPath (r : Row) : String := (colVal r "Path").getD ""

/-- Lines 122-135: filter the index by track, then by
`Path != 'None'`, then by `c_type`. -/
def selectBursts (gdf : List Row) (track ctype : String) : List Row :=
  ((gdf.filter (fun r => colVal r "Track" == some track)).filter
      (fun r => colVal r "Path" != some "None")).filter
    (fun r => colVal r "c_type" == some ctype)

/-- Lines 162-166: the `dataframes_list` loop, loading every selected
burst with standardised column names. -/
def dataframes_list (disk : Disk) : List Row → List (List Row)
  | [] => []
  | r :: rs => rename_columns (disk (rowPath r)).df :: dataframes_list disk rs

/-- Modelled from the spec: `concatenate_geodataframes` is imported by
`merge_burst.py` from `read_as_geodataframe` but the function itself
is absent from the repository sources.  The spec describes the step as
"load and concatenate per-file geodata", so it is modelled as the
concatenation of the given dataframes' rows, in order. -/
def concatenate_geodataframes (dfs : List (List Row)) : List Row :=
  dfs.flatten

/-- The optional `--clip_aoi` clip (lines 175-180): a geometric clip,
modelled as filtering by an abstract AOI membership predicate; applied
exactly when the argument is supplied. -/
def clipOpt (clipAoi : Option (Row → Bool)) (df : List Row) : List Row :=
  match clipAoi with
  | some aoi => df.filter aoi
  | none => df

/-- The dataframe `merge_burst.py` holds at write time for one
(track, c_type) iteration: concatenate the loaded bursts, drop
duplicate (latitude, longitude) pairs, optionally clip, apply the
date-column renaming. -/
def mergeBurstMerged (disk : Disk) (clipAoi : Option (Row → Bool))
    (gdf : List Row) (track ctype : String) : List Row :=
  dates_convention (clipOpt clipAoi
    (drop_duplicates ["latitude", "longitude"]
      (concatenate_geodataframes
        (dataframes_list disk (selectBursts gdf track ctype)))))

/-- What lands in the output file: the csv writer drops the geometry
column; parquet and shp write the frame as is (CRS conversion is not
modelled). -/
def writtenTable (fmt : OutFormat) (df : List Row) : List Row :=
  match fmt with
  | .csv => dropCol "geometry" df
  | _ => df

/-- Lines 127-130: `c_type_str` is empty for the `'None'` type. -/
def c_type_str (ctype : String) : String :=
  if ctype == "None" then "" else ctype

/-- The `out_f_name` format string of `merge_burst.py` (line 186). -/
def burstOutName (f : GspFile) (track aoiTag orbitDir ctypeStr : String) :
    String :=
  "ISS_" ++ removeDashes f.product_id ++ "_" ++ removeDashes f.start_date
    ++ "_" ++ removeDashes f.end_date ++ "_" ++ track ++ aoiTag
    ++ orbitDir ++ ctypeStr ++ "_01"

/-- `out_f_name` for an iteration whose first selected row is `r0`. -/
def burstBase (disk : Disk) (aoiTag track ctype : String) (r0 : Row) :
    String :=
  burstOutName (disk (rowPath r0)) track aoiTag
    ((colVal r0 "Orbit_Dir").getD "") (c_type_str ctype)

/-- `out_file` (lines 200-210). -/
def burstOutFile (disk : Disk) (fmt : OutFormat)
    (outDir aoiTag track ctype : String) (r0 : Row) : String :=
  pjoin outDir (burstBase disk aoiTag track ctype r0 ++ fmtExt fmt)

/-- `metadata_f_name` (line 223). -/
def burstMetaFName (disk : Disk) (aoiTag track ctype : String) (r0 : Row) :
    String :=
  burstBase disk aoiTag track ctype r0 ++ ".xml"

/-- `metadata_path` (line 227). -/
def burstMetaPath (disk : Disk) (outDir aoiTag track ctype : String)
    (r0 : Row) : String :=
  pjoin outDir (burstMetaFName disk aoiTag track ctype r0)

/-- `zip_name` (line 350). -/
def burstZipName (disk : Disk) (outDir aoiTag track ctype : String)
    (r0 : Row) : String :=
  pyReplace (burstMetaPath disk outDir aoiTag track ctype r0) ".xml" ".zip"

/-- One `<gsp>` dataset entry (lines 302-338): the input product type
is recovered from position 4 of the underscore-split file stem, and
the original SVC01 product id is rebuilt by string replacement. -/
def burstGspEntry (disk : Disk) (r : Row) : GspEntry :=
  let p := rowPath r
  let p_f_name := splitOnCharStr '_' (pathStem p)
  let f4 := p_f_name.getD 4 ""
  let gsp_id_in := if f4.endsWith "B" then "S301" ++ SENSOR ++ "01"
    else "S301" ++ SENSOR ++ "02"
  let pid1 := pyReplace (pathStem p) (p_f_name.getD 1 "") gsp_id_in
  let pid2 := pyReplace pid1 f4 (strDropLast f4)
  ⟨gsp_id_in, pid2, (disk p).burst_id, gsp_description gsp_id_in⟩

/-- The burst metadata document (lines 245-338), with the fields taken
from the first selected burst's archive and one dataset entry per
selected burst. -/
def burstXmlMeta (disk : Disk) (outName track aoiTag : String) (r0 : Row)
    (sel : List Row) : GspXmlMeta :=
  let f := disk (rowPath r0)
  { gsp_id := f.product_id
    product_id := pyReplace outName ".csv" ""
    description := gsp_description f.product_id
    sensor_id := SENSOR
    track_id := track
    provider := f.provider
    production_date := removeDashes f.production_date
    start_date := removeDashes f.start_date
    end_date := removeDashes f.end_date
    aoi := aoiTag
    crs := f.crs
    datasetInputs := gsp_metadata f.product_id
    datasetGsps := sel.map (burstGspEntry disk) }

/-- The file-system trace of one (track, c_type) iteration of
`merge_burst.py`: nothing when no burst is selected (the `continue`),
otherwise write the merged file, write the metadata XML, write the zip
holding both, then delete the two intermediate files. -/
def mergeBurstIteration (disk : Disk) (fmt : OutFormat)
    (clipAoi : Option (Row → Bool)) (outDir aoiTag : String)
    (gdf : List Row) (track ctype : String) : List FsAction :=
  match selectBursts gdf track ctype with
  | [] => []
  | r0 :: rest =>
      let written := writtenTable fmt
        (mergeBurstMerged disk clipAoi gdf track ctype)
      let outF := burstOutFile disk fmt outDir aoiTag track ctype r0
      let metaF := burstMetaFName disk aoiTag track ctype r0
      let metaP := burstMetaPath disk outDir aoiTag track ctype r0
      let zipN := burstZipName disk outDir aoiTag track ctype r0
      let xmlC := FileContent.burstXml
        (burstXmlMeta disk (burstBase disk aoiTag track ctype r0) track
          aoiTag r0 (r0 :: rest))
      [ FsAction.write outF (FileContent.table written),
        FsAction.write metaP xmlC,
        FsAction.write zipN (FileContent.zipArc
          [(metaF, xmlC), (baseName outF, FileContent.table written)]),
        FsAction.remove metaP,
        FsAction.remove outF ]

/-- `pandas.unique` (first occurrence kept, stable order). -/
def uniqueAux (seen : List String) : List String → List String
  | [] => []
  | a :: l => if a ∈ seen then uniqueAux seen l else a :: uniqueAux (a :: seen) l

/-- `gdf['Track'].unique()` (line 117). -/
def uniqueTracks (gdf : List Row) : List String :=
  uniqueAux [] (gdf.map (fun r => (colVal r "Track").getD ""))

/-- The whole main loop of `merge_burst.py`: every track of the index,
and for each track the calibration types `'C'`, `'B'`, `'None'`, in
order. -/
def mergeBurstMain (disk : Disk) (fmt : OutFormat)
    (clipAoi : Option (Row → Bool)) (outDir aoiTag : String)
    (gdf : List Row) : List FsAction :=
  ((uniqueTracks gdf).map (fun track =>
    (["C", "B", "None"].map (fun ctype =>
      mergeBurstIteration disk fmt clipAoi outDir aoiTag gdf track
        ctype)).flatten)).flatten

/-- The per-(track, c_type) merge pipeline as claim C1 words it:
select the index rows with that track, a Path different from 'None',
and that c_type; load every listed burst file as a geodataframe with
standardised column names; concatenate all of them; remove duplicate
rows by the (latitude, longitude) pair; clip to the AOI exactly when a
clip AOI argument is supplied. -/
def specMergeBurst (disk : Disk) (clipAoi : Option (Row → Bool))
    (gdf : List Row) (track ctype : String) : List Row :=
  clipOpt clipAoi (drop_duplicates ["latitude", "longitude"]
    ((gdf.filter (fun r =>
        colVal r "Track" == some track && colVal r "Path" != some "None"
          && colVal r "c_type" == some ctype)).map
      (fun r => rename_columns (disk (rowPath r)).df)).flatten)

/-! ## `merge_tiles.py` -/

/-- Line 103: remove index lines whose `Path` is `'None'` (done once,
before the per-direction loop). -/
def selectTilesNonNone (gdf : List Row) : List Row :=
  gdf.filter (fun r => colVal r "Path" != some "None")

/-- Line 121: the tiles listed for one deformation direction. -/
def selectOrtho (gdf : List Row) (ortho : String) : List Row :=
  (selectTilesNonNone gdf).filter (fun r => colVal r "Ortho" == some ortho)

/-- Lines 146-150, exactly as written in the source: each pass of the
loop reassigns `gdf_tiles = gdf_ortho._append(rename_columns(
read_as_geodataframe(tile_path)))`, i.e. the *index* frame with the
current tile's rows appended, discarding the previous accumulator. -/
def mergeTilesLoop (disk : Disk) (gdfOrtho : List Row) :
    List Row → List Row → List Row
  | gdfTiles, [] => gdfTiles
  | _gdfTiles, r :: rs =>
      mergeTilesLoop disk gdfOrtho
        (gdfOrtho ++ rename_columns (disk (rowPath r)).df) rs

/-- The frame reaching the dedup of line 153: the first tile's loaded
frame when it is alone, otherwise whatever the reassigning loop leaves
behind. -/
def mergeTilesPreDedup (disk : Disk) (gdfOrtho : List Row) : List Row :=
  match gdfOrtho with
  | [] => []
  | r0 :: rest =>
      mergeTilesLoop disk (r0 :: rest)
        (rename_columns (disk (rowPath r0)).df) rest

/-- The dataframe `merge_tiles.py` holds at write time for one
direction: dedup by (easting, northing), optionally clip, rename the
all-digit columns. -/
def mergeTilesMerged (disk : Disk) (clipAoi : Option (Row → Bool))
    (gdfOrtho : List Row) : List Row :=
  digit_columns_rename (clipOpt clipAoi
    (drop_duplicates ["easting", "northing"]
      (mergeTilesPreDedup disk gdfOrtho)))

/-- What claim C2 says reaches the dedup step: the concatenation of
the geodata loaded (with standardised column names) from every tile
file listed for the direction. -/
def specTilesConcat (disk : Disk) (gdfOrtho : List Row) : List Row :=
  (gdfOrtho.map (fun r => rename_columns (disk (rowPath r)).df)).flatten

/-- The `out_f_name` format string of `merge_tiles.py` (line 171):
start and end date are positions 2 and 3 of the underscore-split stem
of the first tile's path. -/
def tilesOutName (f : GspFile) (ftPath aoiTag ortho : String) : String :=
  "ISS_" ++ removeDashes f.product_id ++ "_"
    ++ (splitOnCharStr '_' (pathStem ftPath)).getD 2 "" ++ "_"
    ++ (splitOnCharStr '_' (pathStem ftPath)).getD 3 ""
    ++ "_" ++ aoiTag ++ "O" ++ ortho ++ "_01"

/-- `out_f_name` for the direction whose first listed tile is `r0`. -/
def tilesBase (disk : Disk) (aoiTag ortho : String) (r0 : Row) : String :=
  tilesOutName (disk (rowPath r0)) (rowPath r0) aoiTag ortho

/-- `out_file` (lines 176-186). -/
def tilesOutFile (disk : Disk) (fmt : OutFormat)
    (outDir aoiTag ortho : String) (r0 : Row) : String :=
  pjoin outDir (tilesBase disk aoiTag ortho r0 ++ fmtExt fmt)

/-- `metadata_f_name` (line 198). -/
def tilesMetaFName (disk : Disk) (aoiTag ortho : String) (r0 : Row) :
    String :=
  tilesBase disk aoiTag ortho r0 ++ ".xml"

/-- The path the metadata is written to and removed from:
`os.path.join(out_dir, metadata_file)` where `metadata_file` is itself
`os.path.join(out_dir, metadata_f_name)` (lines 201, 307, 317, 321 all
use the same doubly joined path). -/
def tilesMetaPath (disk : Disk) (outDir aoiTag ortho : String) (r0 : Row) :
    String :=
  pjoin outDir (pjoin outDir (tilesMetaFName disk aoiTag ortho r0))

/-- `zip_name` (lines 311-313). -/
def tilesZipName (disk : Disk) (outDir aoiTag ortho : String) (r0 : Row) :
    String :=
  pyReplace (tilesMetaPath disk outDir aoiTag ortho r0) ".xml" ".zip"

/-- One `<gsp>` dataset entry (lines 271-299): the input gsp id is
fixed to `S301SNT03`. -/
def tileEntry (disk : Disk) (r : Row) : TileEntry :=
  let p := rowPath r
  let gsp_id_in := "S301SNT03"
  let p_f_name := splitOnCharStr '_' (pathStem p)
  let pid := pyReplace (pathStem p) (p_f_name.getD 1 "") gsp_id_in
  ⟨gsp_id_in, pid, (disk p).tile_id, gsp_description gsp_id_in⟩

/-- The tiles metadata document (lines 219-299). -/
def tilesXmlMeta (disk : Disk) (outName aoiTag : String) (r0 : Row)
    (sel : List Row) : TilesXmlMeta :=
  let f := disk (rowPath r0)
  { gsp_id := f.product_id
    product_id := pyReplace outName ".csv" ""
    description := gsp_description f.product_id
    sensor_id := SENSOR
    provider := f.provider
    production_date := removeDashes f.production_date
    start_date := (splitOnCharStr '_' (pathStem (rowPath r0))).getD 2 ""
    end_date := (splitOnCharStr '_' (pathStem (rowPath r0))).getD 3 ""
    aoi := aoiTag
    crs := f.crs
    datasetInputs := gsp_metadata f.product_id
    datasetGsps := sel.map (tileEntry disk) }

/-- The file-system trace of one direction of `merge_tiles.py`:
nothing when no tile is listed (the `continue`), otherwise write the
merged file, write the metadata XML, write the zip holding both, then
delete the two intermediate files. -/
def mergeTilesIteration (disk : Disk) (fmt : OutFormat)
    (clipAoi : Option (Row → Bool)) (outDir aoiTag : String)
    (gdf : List Row) (ortho : String) : List FsAction :=
  match selectOrtho gdf ortho with
  | [] => []
  | r0 :: rest =>
      let written := writtenTable fmt
        (mergeTilesMerged disk clipAoi (r0 :: rest))
      let outF := tilesOutFile disk fmt outDir aoiTag ortho r0
      let metaF := tilesMetaFName disk aoiTag ortho r0
      let metaP := tilesMetaPath disk outDir aoiTag ortho r0
      let zipN := tilesZipName disk outDir aoiTag ortho r0
      let xmlC := FileContent.tilesXml
        (tilesXmlMeta disk (tilesBase disk aoiTag ortho r0) aoiTag r0
          (r0 :: rest))
      [ FsAction.write outF (FileContent.table written),
        FsAction.write metaP xmlC,
        FsAction.write zipN (FileContent.zipArc
          [(metaF, xmlC), (baseName outF, FileContent.table written)]),
        FsAction.remove metaP,
        FsAction.remove outF ]

/-- The whole per-direction loop of `merge_tiles.py`: `'V'` then
`'E'`. -/
def mergeTilesMain (disk : Disk) (fmt : OutFormat)
    (clipAoi : Option (Row → Bool)) (outDir aoiTag : String)
    (gdf : List Row) : List FsAction :=
  (["V", "E"].map (fun ortho =>
    mergeTilesIteration disk fmt clipAoi outDir aoiTag gdf ortho)).flatten

/-! ## Claim C1: the merge_burst pipeline follows the specified steps -/

/-- The `dataframes_list` loop loads exactly the selected bursts, in
order. -/
theorem dataframes_list_eq_map (disk : Disk) (l : List Row) :
    dataframes_list disk l =
      l.map (fun r => rename_columns (disk (rowPath r)).df) := by
  induction l with
  | nil => rfl
  | cons r rs ih => simp [dataframes_list, ih]

/-- The three successive filters of lines 122-135 select exactly the
rows with the given track, a `Path` different from `'None'`, and the
given `c_type`. -/
theorem selectBursts_eq_filter (gdf : List Row) (track ctype : String) :
    selectBursts gdf track ctype = gdf.filter (fun r =>
      colVal r "Track" == some track && colVal r "Path" != some "None"
        && colVal r "c_type" == some ctype) := by
  unfold selectBursts
  rw [List.filter_filter, List.filter_filter]
  apply List.filter_congr
  intro r _
  cases colVal r "Track" == some track <;>
    cases colVal r "Path" != some "None" <;>
      cases colVal r "c_type" == some ctype <;> rfl

/-- The dataframe merge_burst holds at write time is the pipeline of
claim C1 (select, load, concatenate, dedup, optionally clip) followed
by the source's date-column renaming. -/
theorem mergeBurstMerged_eq_spec (disk : Disk)
    (clipAoi : Option (Row → Bool)) (gdf : List Row)
    (track ctype : String) :
    mergeBurstMerged disk clipAoi gdf track ctype =
      dates_convention (specMergeBurst disk clipAoi gdf track ctype) := by
  unfold mergeBurstMerged specMergeBurst concatenate_geodataframes
  rw [dataframes_list_eq_map, selectBursts_eq_filter]

/-- C1: for every index content, every track and every calibration
type in `['C', 'B', 'None']` with a non-empty selection, the iteration
of `merge_burst.py` (i) computes the merged frame exactly as the claim
describes - select the rows with that track, `Path != 'None'` and that
`c_type`, load each listed burst with standardised columns,
concatenate, dedup by (latitude, longitude), clip exactly when a clip
AOI is supplied (then the source's date-column renaming) - and (ii)
performs, in this order: write the merged file, write the XML metadata
sidecar, write the zip archive, then remove the intermediates. -/
theorem mergeBurst_pipeline_spec (disk : Disk) (fmt : OutFormat)
    (clipAoi : Option (Row → Bool)) (outDir aoiTag : String)
    (gdf : List Row) (track ctype : String)
    (htrack : track ∈ uniqueTracks gdf) (hct : ctype ∈ ["C", "B", "None"])
    (r0 : Row) (rest : List Row)
    (hsel : selectBursts gdf track ctype = r0 :: rest) :
    mergeBurstIteration disk fmt clipAoi outDir aoiTag gdf track ctype =
      [ FsAction.write (burstOutFile disk fmt outDir aoiTag track ctype r0)
          (FileContent.table (writtenTable fmt
            (dates_convention
              (specMergeBurst disk clipAoi gdf track ctype)))),
        FsAction.write (burstMetaPath disk outDir aoiTag track ctype r0)
          (FileContent.burstXml (burstXmlMeta disk
            (burstBase disk aoiTag track ctype r0) track aoiTag r0
            (r0 :: rest))),
        FsAction.write (burstZipName disk outDir aoiTag track ctype r0)
          (FileContent.zipArc
            [ (burstMetaFName disk aoiTag track ctype r0,
                FileContent.burstXml (burstXmlMeta disk
                  (burstBase disk aoiTag track ctype r0) track aoiTag r0
                  (r0 :: rest))),
              (baseName (burstOutFile disk fmt outDir aoiTag track ctype r0),
                FileContent.table (writtenTable fmt
                  (dates_convention
                    (specMergeBurst disk clipAoi gdf track ctype)))) ]),
        FsAction.remove (burstMetaPath disk outDir aoiTag track ctype r0),
        FsAction.remove (burstOutFile disk fmt outDir aoiTag track ctype r0) ] := by
  unfold mergeBurstIteration
  rw [hsel, mergeBurstMerged_eq_spec]

/-- A concrete index row used to witness the merge_burst theorems. -/
def burstRowW : Row :=
  [("Track", "T044"),
   ("Path", "/in/ISS_S301SNT02_20240101_20240331_T044SICAB_01.zip"),
   ("c_type", "B"), ("Orbit_Dir", "A")]

/-- A concrete one-row index. -/
def burstGdfW : List Row := [burstRowW]

/-- A concrete disk: every path holds the same small burst archive. -/
def burstDiskW : Disk := fun _ =>
  ⟨[[("latitude", "10"), ("longitude", "20"), ("pid", "P1")]],
    "S3-01-SNT-02", "2024-01-01", "2024-03-31", "2024-04-15",
    "TRE-A", "EPSG:4326", "B0001", "T0001"⟩

/-- Witness for C1 at a concrete one-burst index. -/
theorem mergeBurst_pipeline_spec_witness :
    ("T044" ∈ uniqueTracks burstGdfW ∧ "B" ∈ ["C", "B", "None"] ∧
      selectBursts burstGdfW "T044" "B" = [burstRowW]) ∧
    mergeBurstIteration burstDiskW OutFormat.csv none "/out/SIC" "SIC"
        burstGdfW "T044" "B" =
      [ FsAction.write
          (burstOutFile burstDiskW OutFormat.csv "/out/SIC" "SIC" "T044"
            "B" burstRowW)
          (FileContent.table (writtenTable OutFormat.csv
            (dates_convention
              (specMergeBurst burstDiskW none burstGdfW "T044" "B")))),
        FsAction.write
          (burstMetaPath burstDiskW "/out/SIC" "SIC" "T044" "B" burstRowW)
          (FileContent.burstXml (burstXmlMeta burstDiskW
            (burstBase burstDiskW "SIC" "T044" "B" burstRowW) "T044" "SIC"
            burstRowW [burstRowW])),
        FsAction.write
          (burstZipName burstDiskW "/out/SIC" "SIC" "T044" "B" burstRowW)
          (FileContent.zipArc
            [ (burstMetaFName burstDiskW "SIC" "T044" "B" burstRowW,
                FileContent.burstXml (burstXmlMeta burstDiskW
                  (burstBase burstDiskW "SIC" "T044" "B" burstRowW) "T044"
                  "SIC" burstRowW [burstRowW])),
              (baseName (burstOutFile burstDiskW OutFormat.csv "/out/SIC"
                  "SIC" "T044" "B" burstRowW),
                FileContent.table (writtenTable OutFormat.csv
                  (dates_convention
                    (specMergeBurst burstDiskW none burstGdfW "T044"
                      "B")))) ]),
        FsAction.remove
          (burstMetaPath burstDiskW "/out/SIC" "SIC" "T044" "B" burstRowW),
        FsAction.remove
          (burstOutFile burstDiskW OutFormat.csv "/out/SIC" "SIC" "T044"
            "B" burstRowW) ] :=
  ⟨⟨by decide, by decide, by decide⟩,
    mergeBurst_pipeline_spec burstDiskW OutFormat.csv none "/out/SIC"
      "SIC" burstGdfW "T044" "B" (by decide) (by decide) burstRowW []
      (by decide)⟩

/-! ## Claim C2: which rows reach the merged tiles product -/

/-- First concrete tile data row. -/
def tileRowA : Row := [("easting", "100"), ("northing", "200"), ("d", "a")]

/-- Second concrete tile data row. -/
def tileRowB : Row := [("easting", "300"), ("northing", "400"), ("d", "b")]

/-- Index row listing the first tile. -/
def tIdxRow1 : Row := [("Path", "/in/t1.zip"), ("Ortho", "V")]

/-- Index row listing the second tile. -/
def tIdxRow2 : Row := [("Path", "/in/t2.zip"), ("Ortho", "V")]

/-- A concrete disk with two distinct tile archives. -/
def tilesDiskW : Disk := fun p =>
  if p = "/in/t1.zip" then
    ⟨[tileRowA], "S3-01-SNT-03", "", "", "", "", "", "", "T1"⟩
  else
    ⟨[tileRowB], "S3-01-SNT-03", "", "", "", "", "", "", "T2"⟩

/-- A concrete two-tile index for direction `'V'`. -/
def tilesGdfW : List Row := [tIdxRow1, tIdxRow2]

/-- C2 evaluated at a two-tile index: the reassigning loop of
`merge_tiles.py` leaves the index rows plus only the *last* tile's
rows in the frame that reaches deduplication, so the first tile's rows
- which the claim says every listed tile contributes - are absent both
before dedup and from the merged product, while the claimed
concatenation contains them. -/
theorem mergeTiles_loses_first_tile :
    mergeTilesPreDedup tilesDiskW tilesGdfW = tilesGdfW ++ [tileRowB] ∧
    tileRowA ∈ specTilesConcat tilesDiskW tilesGdfW ∧
    tileRowA ∉ mergeTilesPreDedup tilesDiskW tilesGdfW ∧
    tileRowA ∉ mergeTilesMerged tilesDiskW none tilesGdfW := by
  refine ⟨?_, ?_, ?_, ?_⟩ <;> decide

/-! ## Claim C6: merged products have unique coordinate pairs -/

/-- The renaming predicate of `dates_convention` only selects digit
strings. -/
theorem dates_q_digits (df : List Row) :
    ∀ k, (decide (k ∈ ((dfColumns df).filter datesPatMatch).map stripD))
        = true → isDigitsStr k = true := by
  intro k hk
  have hmem := of_decide_eq_true hk
  obtain ⟨c, hc, rfl⟩ := List.mem_map.mp hmem
  exact stripD_isDigits c (List.mem_filter.mp hc).2

/-- A digit-selecting `D`-prefix renaming preserves the key tuple of
non-digit, non-`D`-initial key columns. -/
theorem rowKey_prefixRename (q : String → Bool)
    (hdig : ∀ k, q k = true → isDigitsStr k = true) (keys : List String)
    (hkeys : ∀ c ∈ keys, isDigitsStr c = false ∧ c.data.head? ≠ some 'D')
    (r : Row) : rowKey keys (prefixRenameRow q r) = rowKey keys r := by
  unfold rowKey
  apply List.map_congr_left
  intro c hc
  exact colVal_prefixRenameRow q hdig c (hkeys c hc).1 (hkeys c hc).2 r

/-- Dedup by key, optional clip, then a digit-column renaming leaves
pairwise distinct key tuples. -/
theorem pairwise_key_rename_clip_dedup (keys : List String)
    (q : String → Bool) (hdig : ∀ k, q k = true → isDigitsStr k = true)
    (hkeys : ∀ c ∈ keys, isDigitsStr c = false ∧ c.data.head? ≠ some 'D')
    (clipAoi : Option (Row → Bool)) (df : List Row) :
    ((clipOpt clipAoi (drop_duplicates keys df)).map
        (prefixRenameRow q)).Pairwise
      (fun a b => rowKey keys a ≠ rowKey keys b) := by
  have h2 : (clipOpt clipAoi (drop_duplicates keys df)).Pairwise
      (fun a b => rowKey keys a ≠ rowKey keys b) := by
    cases clipAoi with
    | none => exact drop_duplicates_pairwise keys df
    | some aoi =>
        exact (drop_duplicates_pairwise keys df).sublist
          (List.filter_sublist _)
  refine List.pairwise_map.mpr (h2.imp ?_)
  intro a b hab
  rw [rowKey_prefixRename q hdig keys hkeys a,
    rowKey_prefixRename q hdig keys hkeys b]
  exact hab

/-- C6: in every merged product written by merge_burst no two records
share the same (latitude, longitude) pair, and in every merged product
written by merge_tiles no two records share the same
(easting, northing) pair. -/
theorem merged_coordinate_pairs_unique :
    (∀ (disk : Disk) (clipAoi : Option (Row → Bool)) (gdf : List Row)
        (track ctype : String),
      (mergeBurstMerged disk clipAoi gdf track ctype).Pairwise
        (fun a b => rowKey ["latitude", "longitude"] a ≠
          rowKey ["latitude", "longitude"] b)) ∧
    (∀ (disk : Disk) (clipAoi : Option (Row → Bool)) (gdfOrtho : List Row),
      (mergeTilesMerged disk clipAoi gdfOrtho).Pairwise
        (fun a b => rowKey ["easting", "northing"] a ≠
          rowKey ["easting", "northing"] b)) := by
  constructor
  · intro disk clipAoi gdf track ctype
    unfold mergeBurstMerged dates_convention
    exact pairwise_key_rename_clip_dedup ["latitude", "longitude"] _
      (dates_q_digits _) (by decide) clipAoi _
  · intro disk clipAoi gdfOrtho
    unfold mergeTilesMerged digit_columns_rename
    exact pairwise_key_rename_clip_dedup ["easting", "northing"]
      isDigitsStr (fun _ hk => hk) (by decide) clipAoi _

/-! ## Claim C7: one zip per iteration, intermediates deleted -/

/-- Effect of the write-write-write-remove-remove tail every merge
iteration performs: exactly one zip archive is created; after the
trace the zip (holding the metadata member and the data member) is on
disk and both intermediate files are gone, provided the zip's name
differs from theirs. -/
theorem zip_trace_effects (fs : String → Option FileContent)
    (outF metaP zipN metaF obase : String) (tc xmlC : FileContent)
    (ht : isZipWrite (FsAction.write outF tc) = false)
    (hx : isZipWrite (FsAction.write metaP xmlC) = false)
    (hzm : zipN ≠ metaP) (hzo : zipN ≠ outF) :
    zipWriteCount
        [ FsAction.write outF tc, FsAction.write metaP xmlC,
          FsAction.write zipN
            (FileContent.zipArc [(metaF, xmlC), (obase, tc)]),
          FsAction.remove metaP, FsAction.remove outF ] = 1 ∧
    applyTrace fs
        [ FsAction.write outF tc, FsAction.write metaP xmlC,
          FsAction.write zipN
            (FileContent.zipArc [(metaF, xmlC), (obase, tc)]),
          FsAction.remove metaP, FsAction.remove outF ] zipN =
      some (FileContent.zipArc [(metaF, xmlC), (obase, tc)]) ∧
    applyTrace fs
        [ FsAction.write outF tc, FsAction.write metaP xmlC,
          FsAction.write zipN
            (FileContent.zipArc [(metaF, xmlC), (obase, tc)]),
          FsAction.remove metaP, FsAction.remove outF ] metaP = none ∧
    applyTrace fs
        [ FsAction.write outF tc, FsAction.write metaP xmlC,
          FsAction.write zipN
            (FileContent.zipArc [(metaF, xmlC), (obase, tc)]),
          FsAction.remove metaP, FsAction.remove outF ] outF = none := by
  refine ⟨?_, ?_, ?_, ?_⟩
  · simp [zipWriteCount, List.filter_cons, ht, hx,
      show isZipWrite (FsAction.write zipN
        (FileContent.zipArc [(metaF, xmlC), (obase, tc)])) = true from rfl,
      show isZipWrite (FsAction.remove metaP) = false from rfl,
      show isZipWrite (FsAction.remove outF) = false from rfl]
  · simp only [applyTrace, List.foldl, applyAction]
    simp [hzo, hzm]
  · simp only [applyTrace, List.foldl, applyAction]
    simp
  · simp only [applyTrace, List.foldl, applyAction]
    simp

/-- C7: every completing merge iteration of merge_burst and
merge_tiles produces exactly one zip archive, containing the XML
metadata file and the merged data file, and applying the iteration's
trace to any file system leaves the zip present and both standalone
intermediate files (the XML and the data file) deleted. -/
theorem merge_zip_only_artifact :
    (∀ (fs : String → Option FileContent) (disk : Disk) (fmt : OutFormat)
        (clipAoi : Option (Row → Bool)) (outDir aoiTag : String)
        (gdf : List Row) (track ctype : String) (r0 : Row)
        (rest : List Row),
      selectBursts gdf track ctype = r0 :: rest →
      burstZipName disk outDir aoiTag track ctype r0 ≠
        burstMetaPath disk outDir aoiTag track ctype r0 →
      burstZipName disk outDir aoiTag track ctype r0 ≠
        burstOutFile disk fmt outDir aoiTag track ctype r0 →
      zipWriteCount (mergeBurstIteration disk fmt clipAoi outDir aoiTag
        gdf track ctype) = 1 ∧
      applyTrace fs (mergeBurstIteration disk fmt clipAoi outDir aoiTag
          gdf track ctype)
          (burstZipName disk outDir aoiTag track ctype r0) =
        some (FileContent.zipArc
          [ (burstMetaFName disk aoiTag track ctype r0,
              FileContent.burstXml (burstXmlMeta disk
                (burstBase disk aoiTag track ctype r0) track aoiTag r0
                (r0 :: rest))),
            (baseName (burstOutFile disk fmt outDir aoiTag track ctype r0),
              FileContent.table (writtenTable fmt
                (mergeBurstMerged disk clipAoi gdf track ctype))) ]) ∧
      applyTrace fs (mergeBurstIteration disk fmt clipAoi outDir aoiTag
          gdf track ctype)
          (burstMetaPath disk outDir aoiTag track ctype r0) = none ∧
      applyTrace fs (mergeBurstIteration disk fmt clipAoi outDir aoiTag
          gdf track ctype)
          (burstOutFile disk fmt outDir aoiTag track ctype r0) = none) ∧
    (∀ (fs : String → Option FileContent) (disk : Disk) (fmt : OutFormat)
        (clipAoi : Option (Row → Bool)) (outDir aoiTag : String)
        (gdf : List Row) (ortho : String) (r0 : Row) (rest : List Row),
      selectOrtho gdf ortho = r0 :: rest →
      tilesZipName disk outDir aoiTag ortho r0 ≠
        tilesMetaPath disk outDir aoiTag ortho r0 →
      tilesZipName disk outDir aoiTag ortho r0 ≠
        tilesOutFile disk fmt outDir aoiTag ortho r0 →
      zipWriteCount (mergeTilesIteration disk fmt clipAoi outDir aoiTag
        gdf ortho) = 1 ∧
      applyTrace fs (mergeTilesIteration disk fmt clipAoi outDir aoiTag
          gdf ortho) (tilesZipName disk outDir aoiTag ortho r0) =
        some (FileContent.zipArc
          [ (tilesMetaFName disk aoiTag ortho r0,
              FileContent.tilesXml (tilesXmlMeta disk
                (tilesBase disk aoiTag ortho r0) aoiTag r0 (r0 :: rest))),
            (baseName (tilesOutFile disk fmt outDir aoiTag ortho r0),
              FileContent.table (writtenTable fmt
                (mergeTilesMerged disk clipAoi (r0 :: rest)))) ]) ∧
      applyTrace fs (mergeTilesIteration disk fmt clipAoi outDir aoiTag
          gdf ortho) (tilesMetaPath disk outDir aoiTag ortho r0) = none ∧
      applyTrace fs (mergeTilesIteration disk fmt clipAoi outDir aoiTag
          gdf ortho) (tilesOutFile disk fmt outDir aoiTag ortho r0)
        = none) := by
  constructor
  · intro fs disk fmt clipAoi outDir aoiTag gdf track ctype r0 rest hsel
      hzm hzo
    unfold mergeBurstIteration
    rw [hsel]
    exact zip_trace_effects fs _ _ _ _ _ _ _ rfl rfl hzm hzo
  · intro fs disk fmt clipAoi outDir aoiTag gdf ortho r0 rest hsel hzm hzo
    unfold mergeTilesIteration
    rw [hsel]
    exact zip_trace_effects fs _ _ _ _ _ _ _ rfl rfl hzm hzo

/-- Witness for C7 at the concrete one-burst and two-tile indexes. -/
theorem merge_zip_only_artifact_witness :
    (selectBursts burstGdfW "T044" "B" = [burstRowW] ∧
      burstZipName burstDiskW "/out/SIC" "SIC" "T044" "B" burstRowW ≠
        burstMetaPath burstDiskW "/out/SIC" "SIC" "T044" "B" burstRowW ∧
      burstZipName burstDiskW "/out/SIC" "SIC" "T044" "B" burstRowW ≠
        burstOutFile burstDiskW OutFormat.csv "/out/SIC" "SIC" "T044" "B"
          burstRowW ∧
      selectOrtho tilesGdfW "V" = [tIdxRow1, tIdxRow2] ∧
      tilesZipName tilesDiskW "/out/SIC" "SIC" "V" tIdxRow1 ≠
        tilesMetaPath tilesDiskW "/out/SIC" "SIC" "V" tIdxRow1 ∧
      tilesZipName tilesDiskW "/out/SIC" "SIC" "V" tIdxRow1 ≠
        tilesOutFile tilesDiskW OutFormat.csv "/out/SIC" "SIC" "V"
          tIdxRow1) ∧
    (zipWriteCount (mergeBurstIteration burstDiskW OutFormat.csv none
        "/out/SIC" "SIC" burstGdfW "T044" "B") = 1 ∧
      applyTrace (fun _ => none) (mergeBurstIteration burstDiskW
          OutFormat.csv none "/out/SIC" "SIC" burstGdfW "T044" "B")
        (burstMetaPath burstDiskW "/out/SIC" "SIC" "T044" "B" burstRowW)
        = none ∧
      applyTrace (fun _ => none) (mergeBurstIteration burstDiskW
          OutFormat.csv none "/out/SIC" "SIC" burstGdfW "T044" "B")
        (burstOutFile burstDiskW OutFormat.csv "/out/SIC" "SIC" "T044"
          "B" burstRowW) = none) ∧
    (zipWriteCount (mergeTilesIteration tilesDiskW OutFormat.csv none
        "/out/SIC" "SIC" tilesGdfW "V") = 1 ∧
      applyTrace (fun _ => none) (mergeTilesIteration tilesDiskW
          OutFormat.csv none "/out/SIC" "SIC" tilesGdfW "V")
        (tilesMetaPath tilesDiskW "/out/SIC" "SIC" "V" tIdxRow1) = none ∧
      applyTrace (fun _ => none) (mergeTilesIteration tilesDiskW
          OutFormat.csv none "/out/SIC" "SIC" tilesGdfW "V")
        (tilesOutFile tilesDiskW OutFormat.csv "/out/SIC" "SIC" "V"
          tIdxRow1) = none) := by
  have hb := merge_zip_only_artifact.1 (fun _ => none) burstDiskW
    OutFormat.csv none "/out/SIC" "SIC" burstGdfW "T044" "B" burstRowW []
    (by decide) (by decide) (by decide)
  have htl := merge_zip_only_artifact.2 (fun _ => none) tilesDiskW
    OutFormat.csv none "/out/SIC" "SIC" tilesGdfW "V" tIdxRow1 [tIdxRow2]
    (by decide) (by decide) (by decide)
  exact ⟨⟨by decide, by decide, by decide, by decide, by decide,
      by decide⟩,
    ⟨hb.1, hb.2.2.1, hb.2.2.2⟩, ⟨htl.1, htl.2.2.1, htl.2.2.2⟩⟩

/-! ## Claim C3: how the scripts react to missing inputs

The entry checks of the five scripts, embedded over an abstract
file-system state (does the checked path exist; how many rows does the
spatial join, or the non-None filter, leave). -/

/-- What a script's entry checks can do: raise an exception, log an
error and return normally, or proceed with the work. -/
inductive EntryOutcome where
  | raises (msg : String)
  | earlyReturn
  | proceeds
deriving DecidableEq

/-- Does the outcome raise an exception? -/
def isRaise : EntryOutcome → Bool
  | .raises _ => true
  | _ => false

/-- `index_bursts.py` lines 415-418 and 447-449: raise
`FileNotFoundError` for a missing AOI file, `ValueError` for a missing
burst directory, and `ValueError` when the spatial join is empty.  (The
burst index shapefile itself is never checked.) -/
def index_bursts_entry (aoiExists burstDirExists : Bool)
    (joinCount : Nat) : EntryOutcome :=
  if !aoiExists then .raises "FileNotFoundError"
  else if !burstDirExists then .raises "ValueError"
  else if joinCount = 0 then .raises "ValueError"
  else .proceeds

/-- `index_tiles.py` lines 330-333 and 352-354: the same checks with
`os.path.isdir` for the tile directory. -/
def index_tiles_entry (aoiExists tileDirIsDir : Bool)
    (joinCount : Nat) : EntryOutcome :=
  if !aoiExists then .raises "FileNotFoundError"
  else if !tileDirIsDir then .raises "ValueError"
  else if joinCount = 0 then .raises "ValueError"
  else .proceeds

/-- `merge_burst.py` lines 95-97: a missing index file is only logged
(`logging.error`) and the function returns - no exception. -/
def merge_burst_entry (indexExists : Bool) : EntryOutcome :=
  if !indexExists then .earlyReturn else .proceeds

/-- `merge_tiles.py` lines 90-92 and 103-107: a missing index file, or
an index with no non-None paths, is logged and the function returns -
no exception. -/
def merge_tiles_entry (indexExists : Bool) (nonNoneCount : Nat) :
    EntryOutcome :=
  if !indexExists then .earlyReturn
  else if nonNoneCount = 0 then .earlyReturn
  else .proceeds

/-- `process_trea.py` lines 34-36: raise `FileNotFoundError` for a
missing input directory. -/
def process_trea_entry (inDirExists : Bool) : EntryOutcome :=
  if !inDirExists then .raises "FileNotFoundError" else .proceeds

/-- C3 as stated is false: `merge_burst.py` (and `merge_tiles.py`)
handle a non-existent index file by logging and returning normally,
not by raising an exception. -/
theorem merge_missing_index_does_not_raise :
    merge_burst_entry false = EntryOutcome.earlyReturn ∧
    isRaise (merge_burst_entry false) = false ∧
    merge_tiles_entry false 5 = EntryOutcome.earlyReturn ∧
    isRaise (merge_tiles_entry false 5) = false := by
  decide

/-- C3 amended: the index scripts and process_trea raise on their
checked missing inputs and on an empty spatial join, while merge_burst
and merge_tiles log and return normally on a missing index file (and
merge_tiles also on an index without usable paths). -/
theorem script_entry_error_handling :
    (∀ (d : Bool) (n : Nat),
      index_bursts_entry false d n = EntryOutcome.raises
        "FileNotFoundError") ∧
    (∀ n : Nat,
      index_bursts_entry true false n = EntryOutcome.raises "ValueError") ∧
    index_bursts_entry true true 0 = EntryOutcome.raises "ValueError" ∧
    (∀ (d : Bool) (n : Nat),
      index_tiles_entry false d n = EntryOutcome.raises
        "FileNotFoundError") ∧
    (∀ n : Nat,
      index_tiles_entry true false n = EntryOutcome.raises "ValueError") ∧
    index_tiles_entry true true 0 = EntryOutcome.raises "ValueError" ∧
    process_trea_entry false = EntryOutcome.raises "FileNotFoundError" ∧
    merge_burst_entry false = EntryOutcome.earlyReturn ∧
    (∀ n : Nat, merge_tiles_entry false n = EntryOutcome.earlyReturn) ∧
    merge_tiles_entry true 0 = EntryOutcome.earlyReturn := by
  refine ⟨fun d n => rfl, fun n => rfl, rfl, fun d n => rfl, fun n => rfl,
    rfl, rfl, rfl, fun n => rfl, rfl⟩
